import Mathlib

/-!
Verification of the galeriafora media-integration core against its
natural-language specification.

The Python sources under `src/galeriafora` are embedded shallowly:

* Python `str` becomes `String`, with `str.strip` / `str.lower` /
  `str.isalnum` modelled on the ASCII fragment by `pyStrip`,
  `Char.toLower` and `Char.isAlphanum`;
* value objects and entities become Lean structures whose fallible
  constructors return `Except Exc _`, where `Exc` enumerates the
  repository's exception classes (plus the stdlib `ValueError` /
  `KeyError` used internally by `_get_provider`);
* the orchestration services (`MediaFetcher`, `MediaUploader`) become
  functions over an explicit registry, a `List` of provider models whose
  external async operations are given as result-valued fields;
* Python dicts produced by `to_dict` become wire-record structures
  consumed by the corresponding `fromDict`.
-/

namespace Galeriafora

/-! ## Python string primitives (ASCII model) -/

/-- Python `str.strip()`: drop whitespace from both ends. -/
def pyStripList (l : List Char) : List Char :=
  ((l.dropWhile Char.isWhitespace).reverse.dropWhile Char.isWhitespace).reverse

/-- Python `str.strip()` on `String`. -/
def pyStrip (s : String) : String :=
  String.mk (pyStripList s.data)

/-- Python `str.lower()` on `String` (ASCII model). -/
def pyLower (s : String) : String :=
  String.mk (s.data.map Char.toLower)

/-!
### Character lemmas
-/

theorem char_isAlphanum_not_isWhitespace {c : Char}
    (h : c.isAlphanum = true) : c.isWhitespace = false := by
  cases hw : c.isWhitespace with
  | false => rfl
  | true =>
    exfalso
    simp only [Char.isWhitespace, Bool.or_eq_true, decide_eq_true_eq] at hw
    rcases hw with ((h1 | h1) | h1) | h1 <;> subst h1 <;> exact absurd h (by decide)

theorem char_toNat_ofNat_small {n : Nat} (h : n < 55296) :
    (Char.ofNat n).toNat = n := by
  rw [Char.ofNat, dif_pos (Or.inl h)]
  rfl

theorem char_isUpper_iff {c : Char} :
    c.isUpper = true ↔ 65 ≤ c.toNat ∧ c.toNat ≤ 90 := by
  simp only [Char.isUpper, Bool.and_eq_true, decide_eq_true_eq, ge_iff_le]
  constructor
  · rintro ⟨h1, h2⟩
    constructor
    · exact UInt32.le_def.mp h1
    · exact UInt32.le_def.mp h2
  · rintro ⟨h1, h2⟩
    constructor
    · exact UInt32.le_def.mpr h1
    · exact UInt32.le_def.mpr h2

theorem char_toLower_of_upper {c : Char} (h : 65 ≤ c.toNat ∧ c.toNat ≤ 90) :
    Char.toLower c = Char.ofNat (c.toNat + 32) := by
  rw [Char.toLower, if_pos h]

theorem char_toLower_of_not_upper {c : Char} (h : ¬(65 ≤ c.toNat ∧ c.toNat ≤ 90)) :
    Char.toLower c = c := by
  rw [Char.toLower, if_neg h]

theorem char_toLower_not_upper (c : Char) : (Char.toLower c).isUpper = false := by
  by_cases h : 65 ≤ c.toNat ∧ c.toNat ≤ 90
  · rw [char_toLower_of_upper h]
    cases hu : (Char.ofNat (c.toNat + 32)).isUpper with
    | false => rfl
    | true =>
      exfalso
      have := char_isUpper_iff.mp hu
      rw [char_toNat_ofNat_small (by omega)] at this
      omega
  · rw [char_toLower_of_not_upper h]
    cases hu : c.isUpper with
    | false => rfl
    | true => exact absurd (char_isUpper_iff.mp hu) h

theorem char_toLower_idem (c : Char) :
    Char.toLower (Char.toLower c) = Char.toLower c := by
  apply char_toLower_of_not_upper
  intro hcon
  have h1 := char_isUpper_iff.mpr hcon
  have h2 := char_toLower_not_upper c
  rw [h1] at h2
  exact Bool.noConfusion h2

theorem dropWhile_eq_self_of_all_false {p : Char → Bool} :
    ∀ l : List Char, (∀ c ∈ l, p c = false) → l.dropWhile p = l
  | [], _ => rfl
  | c :: l, h => by
    have hc : p c = false := h c (List.mem_cons_self c l)
    simp [List.dropWhile, hc]

theorem pyStripList_eq_self_of_no_whitespace {l : List Char}
    (h : ∀ c ∈ l, c.isWhitespace = false) : pyStripList l = l := by
  unfold pyStripList
  rw [dropWhile_eq_self_of_all_false l h]
  rw [dropWhile_eq_self_of_all_false l.reverse (fun c hc => h c (List.mem_reverse.mp hc))]
  exact List.reverse_reverse l

/-! ## Exception taxonomy

One constructor per exception class of `galeriafora.domain.exceptions`
that the embedded code can raise, plus the Python stdlib `ValueError`
and `KeyError` which `MediaFetcher._get_provider` /
`MediaUploader._get_provider` raise internally, and an opaque
`providerFailure` standing for an arbitrary exception raised by an
external provider implementation. -/

inductive Exc where
  | pnNonStringName
  | pnEmptyName
  | pnNormEmpty
  | pageHasMoreNoCursor
  | pageCursorNoMore
  | emInvalidURL
  | emEmptyTitle
  | emTitleTooLong
  | emDescTooLong
  | emTooManyTags
  | emInvalidProvider
  | emInvalidContentMetadata
  | emInvalidRating
  | epiEmptyName
  | epiEmptyCapabilities
  | epiInvalidCapabilities
  | badContentType
  | badMatureRating
  | badCapabilityValue
  | gpValueError
  | gpKeyError
  | noProvidersFetchLatest
  | invalidNameFetchLatest
  | noCapFetchLatest
  | noProvidersFetchByUser
  | invalidNameFetchByUser
  | noCapFetchByUser
  | noProvidersFetchByTags
  | invalidNameFetchByTags
  | noCapFetchByTags
  | noProvidersUpload
  | invalidNameUpload
  | noCapUpload
  | noProvidersUploadMulti
  | invalidNameUploadMulti
  | providerFailure
  deriving DecidableEq, Repr

/-! ## ProviderName (`domain/provider_name.py`) -/

/-- The normalization performed in `ProviderName.__init__`:
`"".join(char for char in name.strip().lower() if char.isalnum())`. -/
def pnNormalize (s : String) : String :=
  String.mk (((pyStripList s.data).map Char.toLower).filter Char.isAlphanum)

/-- A `ProviderName` stores only the normalized name (`self._name`). -/
structure ProviderName where
  val : String
  deriving DecidableEq, Repr

/-- `ProviderName.__init__` on a string argument (the non-string branch
is handled where a dynamically typed argument is modelled). -/
def ProviderName.create (name : String) : Except Exc ProviderName :=
  if pyStrip name = "" then
    .error .pnEmptyName
  else if pnNormalize name = "" then
    .error .pnNormEmpty
  else
    .ok ⟨pnNormalize name⟩

/-- `ProviderName.__eq__` against a string right-hand side:
`self._name == other.strip().lower()`. -/
def ProviderName.eqStr (p : ProviderName) (other : String) : Bool :=
  p.val == pyLower (pyStrip other)

/-- `ProviderName.__eq__` against another `ProviderName`:
`self._name == other._name`. -/
def ProviderName.eqPN (p other : ProviderName) : Bool :=
  p.val == other.val

/-- Invariant guaranteed by `ProviderName.__init__`: the stored value is
non-empty and consists of alphanumeric characters fixed by lowercasing. -/
def ProviderName.Normalized (p : ProviderName) : Prop :=
  p.val ≠ "" ∧ ∀ c ∈ p.val.data, c.isAlphanum = true ∧ Char.toLower c = c

/-! ## Enumerations (`external_provider_capability.py`, `content_type.py`,
`mature_rating.py`) -/

inductive ExternalProviderCapability where
  | fetchLatest
  | fetchByUser
  | fetchByTags
  | upload
  deriving DecidableEq, Repr

/-- The wire string of each `ExternalProviderCapability` member. -/
def ExternalProviderCapability.value : ExternalProviderCapability → String
  | .fetchLatest => "fetch_latest"
  | .fetchByUser => "fetch_by_user"
  | .fetchByTags => "fetch_by_tags"
  | .upload => "upload"

/-- `ExternalProviderCapability(v)`: enum lookup by value, `ValueError`
on an unknown string. -/
def ExternalProviderCapability.ofValue (v : String) : Except Exc ExternalProviderCapability :=
  if v == "fetch_latest" then .ok .fetchLatest
  else if v == "fetch_by_user" then .ok .fetchByUser
  else if v == "fetch_by_tags" then .ok .fetchByTags
  else if v == "upload" then .ok .upload
  else .error .badCapabilityValue

inductive ContentType where
  | imageJpeg
  | imagePng
  | videoMp4
  | videoWebm
  | gif
  deriving DecidableEq, Repr

/-- The wire string of each `ContentType` member. -/
def ContentType.value : ContentType → String
  | .imageJpeg => "image/jpeg"
  | .imagePng => "image/png"
  | .videoMp4 => "video/mp4"
  | .videoWebm => "video/webm"
  | .gif => "image/gif"

/-- `ContentType(v)`: enum lookup by value, `ValueError` on an unknown
string. -/
def ContentType.ofValue (v : String) : Except Exc ContentType :=
  if v == "image/jpeg" then .ok .imageJpeg
  else if v == "image/png" then .ok .imagePng
  else if v == "video/mp4" then .ok .videoMp4
  else if v == "video/webm" then .ok .videoWebm
  else if v == "image/gif" then .ok .gif
  else .error .badContentType

inductive MatureRating where
  | pg
  | pg13
  | r
  | x
  | xxx
  deriving DecidableEq, Repr

/-- The wire string of each `MatureRating` member. -/
def MatureRating.value : MatureRating → String
  | .pg => "pg"
  | .pg13 => "pg-13"
  | .r => "r"
  | .x => "x"
  | .xxx => "xxx"

/-- `MatureRating(v)`: enum lookup by value, `ValueError` on an unknown
string. -/
def MatureRating.ofValue (v : String) : Except Exc MatureRating :=
  if v == "pg" then .ok .pg
  else if v == "pg-13" then .ok .pg13
  else if v == "r" then .ok .r
  else if v == "x" then .ok .x
  else if v == "xxx" then .ok .xxx
  else .error .badMatureRating

/-! ## AiMetadata (`domain/ai_metadata.py`) -/

structure AiMetadata where
  isAiGenerated : Bool
  deriving DecidableEq, Repr

/-- The dict produced by `AiMetadata.to_dict`. -/
structure AiMetadataDict where
  isAiGenerated : Bool
  deriving DecidableEq, Repr

def AiMetadata.toDict (a : AiMetadata) : AiMetadataDict :=
  ⟨a.isAiGenerated⟩

def AiMetadata.fromDict (d : AiMetadataDict) : AiMetadata :=
  ⟨d.isAiGenerated⟩

/-! ## ContentMetadata (`domain/content_metadata.py`) -/

/-- The `Dimensions` TypedDict. -/
structure Dimensions where
  width : Int
  height : Int
  deriving DecidableEq, Repr

structure ContentMetadata where
  contentType : ContentType
  dimensions : Dimensions
  fileSizeBytes : Int
  deriving DecidableEq, Repr

/-- The dict produced by `ContentMetadata.to_dict`: content_type encoded
as its wire string. -/
structure ContentMetadataDict where
  contentType : String
  dimensions : Dimensions
  fileSizeBytes : Int
  deriving DecidableEq, Repr

def ContentMetadata.toDict (c : ContentMetadata) : ContentMetadataDict :=
  ⟨c.contentType.value, c.dimensions, c.fileSizeBytes⟩

def ContentMetadata.fromDict (d : ContentMetadataDict) : Except Exc ContentMetadata :=
  match ContentType.ofValue d.contentType with
  | .error e => .error e
  | .ok ct => .ok ⟨ct, d.dimensions, d.fileSizeBytes⟩

/-! ## Page (`domain/page.py`)

The embedding is typed, so the dynamic-type checks of `Page.__init__`
(non-list items, non-boolean has_more, non-string next_cursor) cannot
fire; the two cross-field checks remain. -/

structure Page (α : Type) where
  items : List α
  nextCursor : Option String
  hasMore : Bool
  deriving DecidableEq, Repr

/-- `Page.__init__` cross-field validation. -/
def Page.create {α : Type} (items : List α) (nextCursor : Option String)
    (hasMore : Bool) : Except Exc (Page α) :=
  if hasMore && nextCursor.isNone then
    .error .pageHasMoreNoCursor
  else if !hasMore && nextCursor.isSome then
    .error .pageCursorNoMore
  else
    .ok ⟨items, nextCursor, hasMore⟩

/-- The dict produced by `Page.to_dict`. -/
structure PageDict (α : Type) where
  items : List α
  nextCursor : Option String
  hasMore : Bool
  deriving DecidableEq, Repr

def Page.toDict {α : Type} (p : Page α) : PageDict α :=
  ⟨p.items, p.nextCursor, p.hasMore⟩

/-- `Page.from_dict`: rebuilds through the validating constructor. -/
def Page.fromDict {α : Type} (d : PageDict α) : Except Exc (Page α) :=
  Page.create d.items d.nextCursor d.hasMore

/-! ## ExternalProviderInfo (`domain/external_provider_info.py`) -/

structure ExternalProviderInfo where
  name : ProviderName
  description : Option String
  capabilities : List ExternalProviderCapability
  deriving DecidableEq, Repr

/-- `ExternalProviderInfo.__init__`. The `name` argument is optional to
model a Python `None` (or other falsy) argument; a genuine
`ProviderName` instance is always truthy. The typed embedding makes the
per-element `isinstance` capability check vacuous. -/
def ExternalProviderInfo.create (name : Option ProviderName)
    (capabilities : List ExternalProviderCapability) (description : Option String) :
    Except Exc ExternalProviderInfo :=
  match name with
  | none => .error .epiEmptyName
  | some p =>
    if pyStrip p.val = "" then .error .epiEmptyName
    else if capabilities = [] then .error .epiEmptyCapabilities
    else .ok ⟨p, description, capabilities⟩

/-- `ExternalProviderInfo.has_capability`: `capability in self._capabilities`. -/
def ExternalProviderInfo.hasCapability (x : ExternalProviderInfo)
    (c : ExternalProviderCapability) : Bool :=
  x.capabilities.contains c

/-- The dict produced by `ExternalProviderInfo.to_dict`: name as its
normalized string, capabilities as wire strings. -/
structure ProviderInfoDict where
  name : String
  description : Option String
  capabilities : List String
  deriving DecidableEq, Repr

def ExternalProviderInfo.toDict (x : ExternalProviderInfo) : ProviderInfoDict :=
  ⟨x.name.val, x.description, x.capabilities.map ExternalProviderCapability.value⟩

/-- The list comprehension
`[ExternalProviderCapability(cap) for cap in data["capabilities"]]`:
decode each capability string, failing on the first unknown one. -/
def mapCapabilities : List String → Except Exc (List ExternalProviderCapability)
  | [] => .ok []
  | v :: rest =>
    match ExternalProviderCapability.ofValue v, mapCapabilities rest with
    | .error e, _ => .error e
    | .ok _, .error e => .error e
    | .ok c, .ok cs => .ok (c :: cs)

/-- `ExternalProviderInfo.from_dict`: rebuild the `ProviderName`, decode
each capability string, then construct through `__init__`. -/
def ExternalProviderInfo.fromDict (d : ProviderInfoDict) : Except Exc ExternalProviderInfo :=
  match ProviderName.create d.name with
  | .error e => .error e
  | .ok name =>
    match mapCapabilities d.capabilities with
    | .error e => .error e
    | .ok caps => ExternalProviderInfo.create (some name) caps d.description

/-- Validity of an `ExternalProviderInfo` as produced by construction:
normalized name and non-empty capabilities. -/
def ExternalProviderInfo.Valid (x : ExternalProviderInfo) : Prop :=
  x.name.Normalized ∧ x.capabilities ≠ []

/-! ## ExternalMedia (`domain/external_media.py`)

`ExternalMedia.__init__` never inspects `content_metadata`,
`mature_rating` or `ai_metadata`, so the embedding is polymorphic in
those three fields; the serialization claims instantiate them at
`ContentMetadata`, `MatureRating` and `Option AiMetadata`. -/

/-- Split a character list at its first `"://"`, returning the
characters before it and after it. -/
def splitSchemeRest : List Char → Option (List Char × List Char)
  | [] => none
  | ':' :: '/' :: '/' :: rest => some ([], rest)
  | c :: rest =>
    match splitSchemeRest rest with
    | some (scheme, after) => some (c :: scheme, after)
    | none => none

/-- The scheme/netloc extraction of `urllib.parse.urlparse` used by
`ExternalMedia._is_valid_url`. Modelled from the spec: "string must
contain no space character and must parse into a scheme and a
host/authority component; any parse failure or missing component is
invalid" (the stdlib parser itself is outside the repository): the
scheme is what precedes the first `"://"`, the netloc what follows it
up to the next `/`, and both must be non-empty. -/
def urlSchemeNetlocOk (url : String) : Bool :=
  match splitSchemeRest url.data with
  | some (scheme, after) =>
    !scheme.isEmpty && !((after.takeWhile (fun c => c != '/')).isEmpty)
  | none => false

/-- `ExternalMedia._is_valid_url`: the no-space check is from the
source; the parse component check is `urlSchemeNetlocOk`. -/
def isValidUrl (url : String) : Bool :=
  !(url.data.contains ' ') && urlSchemeNetlocOk url

structure ExternalMedia (γ δ ε : Type) where
  url : String
  title : String
  description : String
  contentMetadata : γ
  tags : List String
  matureRating : δ
  aiMetadata : ε
  provider : ExternalProviderInfo
  deriving Repr

/-- `ExternalMedia.__init__`: the six ordered validations, then the
arguments stored unchanged. The `provider` argument is optional to
model a Python `None` (or non-`ExternalProviderInfo`) argument. -/
def ExternalMedia.create {γ δ ε : Type} (url title description : String)
    (contentMetadata : γ) (tags : List String) (matureRating : δ)
    (aiMetadata : ε) (provider : Option ExternalProviderInfo) :
    Except Exc (ExternalMedia γ δ ε) :=
  if url = "" || !isValidUrl url then
    .error .emInvalidURL
  else if title = "" || pyStrip title = "" then
    .error .emEmptyTitle
  else if title.length > 255 then
    .error .emTitleTooLong
  else if description.length > 2048 then
    .error .emDescTooLong
  else if tags.length > 30 then
    .error .emTooManyTags
  else
    match provider with
    | none => .error .emInvalidProvider
    | some p => .ok ⟨url, title, description, contentMetadata, tags, matureRating, aiMetadata, p⟩

/-- The dict produced by `ExternalMedia.to_dict`, nested value objects
encoded as their wire forms. -/
structure MediaDict where
  url : String
  title : String
  description : String
  contentMetadata : ContentMetadataDict
  tags : List String
  matureRating : String
  aiMetadata : Option AiMetadataDict
  provider : ProviderInfoDict
  deriving DecidableEq, Repr

def ExternalMedia.toDict (m : ExternalMedia ContentMetadata MatureRating (Option AiMetadata)) :
    MediaDict :=
  ⟨m.url, m.title, m.description, m.contentMetadata.toDict, m.tags,
    m.matureRating.value, m.aiMetadata.map AiMetadata.toDict, m.provider.toDict⟩

/-- `ExternalMedia.from_dict`: decode the nested value objects, then
construct through `__init__`. `data.get("ai_metadata")` is truthy
exactly when the serialized ai_metadata dict is present. -/
def ExternalMedia.fromDict (d : MediaDict) :
    Except Exc (ExternalMedia ContentMetadata MatureRating (Option AiMetadata)) :=
  match ContentMetadata.fromDict d.contentMetadata with
  | .error e => .error e
  | .ok cm =>
    match MatureRating.ofValue d.matureRating with
    | .error e => .error e
    | .ok mr =>
      match ExternalProviderInfo.fromDict d.provider with
      | .error e => .error e
      | .ok prov =>
        ExternalMedia.create d.url d.title d.description cm d.tags mr
          (d.aiMetadata.map AiMetadata.fromDict) (some prov)

/-- Validity of an `ExternalMedia` as produced by construction: the six
checks hold of the stored fields, with a valid nested provider. -/
def ExternalMedia.Valid {γ δ ε : Type} (m : ExternalMedia γ δ ε) : Prop :=
  m.url ≠ "" ∧ isValidUrl m.url = true ∧ m.title ≠ "" ∧ pyStrip m.title ≠ "" ∧
  m.title.length ≤ 255 ∧ m.description.length ≤ 2048 ∧ m.tags.length ≤ 30 ∧
  m.provider.Valid

/-! ## Orchestration services (`application/media_fetcher.py`,
`application/media_uploader.py`)

The services receive dynamically typed `provider_name` arguments; the
possible shapes are a string, Python `None`, or a non-string value
(whose only observable attribute here is its truthiness). An external
provider is modelled via its `info` plus one result-valued function per
async operation, the results of which stand for the external
collaborator's behaviour; `α` is the media item type of fetched pages
and `μ` the type of the uploaded media argument. -/

inductive NameArg where
  | pyNone
  | str (s : String)
  | nonString (truthy : Bool)
  deriving DecidableEq, Repr

/-- The check `not provider_name or not isinstance(provider_name, str)`
shared by the services and `_get_provider`: only a non-empty string
passes. -/
def nameArgInvalid : NameArg → Bool
  | .pyNone => true
  | .str s => s == ""
  | .nonString _ => true

/-- `DEFAULT_LIMIT` of `media_fetcher.py`. -/
def DEFAULT_LIMIT : Nat := 200

structure ProviderM (α μ : Type) where
  info : ExternalProviderInfo
  fetchLatestOp : Nat → Except Unit (Page α)
  fetchByUserOp : String → Nat → Except Unit (Page α)
  fetchByTagsOp : List String → Nat → Except Unit (Page α)
  uploadOp : List μ → Except Unit Unit

/-- `_get_provider` (identical in `MediaFetcher` and `MediaUploader`):
validate the name, build a `ProviderName` (whose own constructor
exceptions are not caught here), then scan the registry for the first
provider whose `info.name` equals the normalized name. -/
def getProvider {α μ : Type} (registry : List (ProviderM α μ)) (arg : NameArg) :
    Except Exc (ProviderM α μ) :=
  if nameArgInvalid arg then .error .gpValueError
  else
    match arg with
    | .str s =>
      if pyStrip s = "" then .error .pnEmptyName
      else if pnNormalize s = "" then .error .pnNormEmpty
      else
        match registry.find? (fun p => p.info.name.val == pnNormalize s) with
        | some p => .ok p
        | none => .error .gpKeyError
    | _ => .error .gpValueError

/-- The `except (ValueError, KeyError)` clause wrapped around
`_get_provider` calls: those two exceptions are replaced by the
operation-specific invalid-provider-name error, anything else
propagates unchanged. -/
def mapGetProviderErr (opInvalidName : Exc) : Exc → Exc
  | .gpValueError => opInvalidName
  | .gpKeyError => opInvalidName
  | e => e

/-- `MediaFetcher.fetch_latest`. -/
def fetchLatest {α μ : Type} (registry : List (ProviderM α μ)) (arg : NameArg)
    (limit : Nat) : Except Exc (Page α) :=
  if registry.isEmpty then .error .noProvidersFetchLatest
  else if nameArgInvalid arg then .error .invalidNameFetchLatest
  else
    match getProvider registry arg with
    | .error e => .error (mapGetProviderErr .invalidNameFetchLatest e)
    | .ok p =>
      if p.info.hasCapability .fetchLatest then
        match p.fetchLatestOp limit with
        | .ok page => .ok page
        | .error _ => .error .providerFailure
      else .error .noCapFetchLatest

/-- `MediaFetcher.fetch_by_user`. -/
def fetchByUser {α μ : Type} (registry : List (ProviderM α μ)) (arg : NameArg)
    (username : String) (limit : Nat) : Except Exc (Page α) :=
  if registry.isEmpty then .error .noProvidersFetchByUser
  else if nameArgInvalid arg then .error .invalidNameFetchByUser
  else
    match getProvider registry arg with
    | .error e => .error (mapGetProviderErr .invalidNameFetchByUser e)
    | .ok p =>
      if p.info.hasCapability .fetchByUser then
        match p.fetchByUserOp username limit with
        | .ok page => .ok page
        | .error _ => .error .providerFailure
      else .error .noCapFetchByUser

/-- `MediaFetcher.fetch_by_tags`; an absent tags argument is passed on
as the empty list (`tags or []`). -/
def fetchByTags {α μ : Type} (registry : List (ProviderM α μ)) (arg : NameArg)
    (tags : Option (List String)) (limit : Nat) : Except Exc (Page α) :=
  if registry.isEmpty then .error .noProvidersFetchByTags
  else if nameArgInvalid arg then .error .invalidNameFetchByTags
  else
    match getProvider registry arg with
    | .error e => .error (mapGetProviderErr .invalidNameFetchByTags e)
    | .ok p =>
      if p.info.hasCapability .fetchByTags then
        match p.fetchByTagsOp (tags.getD []) limit with
        | .ok page => .ok page
        | .error _ => .error .providerFailure
      else .error .noCapFetchByTags

/-- `MediaUploader.upload`: four validation steps, then the provider's
upload with any exception downgraded to `false`. -/
def upload {α μ : Type} (registry : List (ProviderM α μ)) (arg : NameArg)
    (media : μ) : Except Exc Bool :=
  if registry.isEmpty then .error .noProvidersUpload
  else if nameArgInvalid arg then .error .invalidNameUpload
  else
    match getProvider registry arg with
    | .error e => .error (mapGetProviderErr .invalidNameUpload e)
    | .ok p =>
      if p.info.hasCapability .upload then
        match p.uploadOp [media] with
        | .ok _ => .ok true
        | .error _ => .ok false
      else .error .noCapUpload

/-- `results[provider_name] = v` on an insertion-ordered dict modelled
as an association list: updating an existing key keeps its position. -/
def dictInsert (l : List (String × Bool)) (k : String) (v : Bool) :
    List (String × Bool) :=
  if l.any (fun kv => kv.1 == k) then
    l.map (fun kv => if kv.1 == k then (k, v) else kv)
  else l ++ [(k, v)]

/-- The per-name loop body of `MediaUploader.upload_to_multiple`.
Besides the results dict, the second component records, in order, the
normalized name of each provider whose `upload` operation is actually
invoked. -/
def uploadMultiGo {α μ : Type} (registry : List (ProviderM α μ)) (media : μ) :
    List NameArg → List (String × Bool) → List String →
    Except Exc (List (String × Bool)) × List String
  | [], results, trace => (.ok results, trace)
  | arg :: rest, results, trace =>
    if nameArgInvalid arg then (.error .invalidNameUploadMulti, trace)
    else
      match getProvider registry arg with
      | .error e => (.error (mapGetProviderErr .invalidNameUploadMulti e), trace)
      | .ok p =>
        if p.info.hasCapability .upload then
          let rawName := match arg with | .str s => s | _ => ""
          match p.uploadOp [media] with
          | .ok _ =>
            uploadMultiGo registry media rest (dictInsert results rawName true)
              (trace ++ [p.info.name.val])
          | .error _ =>
            uploadMultiGo registry media rest (dictInsert results rawName false)
              (trace ++ [p.info.name.val])
        else (.error .noCapUpload, trace)

/-- `MediaUploader.upload_to_multiple`, instrumented with the list of
providers whose upload was invoked. -/
def uploadToMultiple {α μ : Type} (registry : List (ProviderM α μ)) (media : μ)
    (names : List NameArg) : Except Exc (List (String × Bool)) × List String :=
  if registry.isEmpty then (.error .noProvidersUploadMulti, [])
  else uploadMultiGo registry media names [] []

/-! ## Concrete fixtures used by counterexamples and witnesses -/

/-- A provider info named `providera` supporting all four capabilities. -/
def epiA : ExternalProviderInfo :=
  ⟨⟨"providera"⟩, none, [.upload, .fetchLatest, .fetchByUser, .fetchByTags]⟩

/-- A registered provider whose external operations all succeed. -/
def provA : ProviderM Nat Nat :=
  ⟨epiA, fun _ => .ok ⟨[], none, false⟩, fun _ _ => .ok ⟨[], none, false⟩,
    fun _ _ => .ok ⟨[], none, false⟩, fun _ => .ok ()⟩

/-- A registered provider supporting UPLOAD whose upload operation
raises an exception. -/
def provB : ProviderM Nat Nat :=
  ⟨⟨⟨"providerb"⟩, none, [.upload]⟩, fun _ => .error (), fun _ _ => .error (),
    fun _ _ => .error (), fun _ => .error ()⟩

/-- A registered provider without the UPLOAD capability. -/
def provC : ProviderM Nat Nat :=
  ⟨⟨⟨"providerc"⟩, none, [.fetchLatest]⟩, fun _ => .ok ⟨[], none, false⟩,
    fun _ _ => .ok ⟨[], none, false⟩, fun _ _ => .ok ⟨[], none, false⟩,
    fun _ => .ok ()⟩

/-! ## Helper lemmas -/

theorem string_mk_data (s : String) : String.mk s.data = s := rfl

theorem pnNormalize_mem {s : String} {c : Char} (h : c ∈ (pnNormalize s).data) :
    c.isAlphanum = true ∧ Char.toLower c = c := by
  unfold pnNormalize at h
  simp only [string_mk_data] at h
  have h' := List.mem_filter.mp h
  refine ⟨h'.2, ?_⟩
  rcases List.mem_map.mp h'.1 with ⟨a, _, ha⟩
  rw [← ha]
  exact char_toLower_idem a

theorem create_ok_val {s : String} {p : ProviderName}
    (h : ProviderName.create s = .ok p) : p.val = pnNormalize s := by
  unfold ProviderName.create at h
  by_cases h1 : pyStrip s = ""
  · rw [if_pos h1] at h; exact absurd h (by simp)
  · rw [if_neg h1] at h
    by_cases h2 : pnNormalize s = ""
    · rw [if_pos h2] at h; exact absurd h (by simp)
    · rw [if_neg h2] at h
      cases h
      rfl

theorem create_ok_normalized {s : String} {p : ProviderName}
    (h : ProviderName.create s = .ok p) : p.Normalized := by
  have hval := create_ok_val h
  constructor
  · rw [hval]
    unfold ProviderName.create at h
    by_cases h1 : pyStrip s = ""
    · rw [if_pos h1] at h; exact absurd h (by simp)
    · rw [if_neg h1] at h
      by_cases h2 : pnNormalize s = ""
      · rw [if_pos h2] at h; exact absurd h (by simp)
      · rw [if_neg h2] at h; exact h2
  · intro c hc
    rw [hval] at hc
    exact pnNormalize_mem hc

theorem pyStrip_of_normalized {p : ProviderName} (h : p.Normalized) :
    pyStrip p.val = p.val := by
  unfold pyStrip
  rw [pyStripList_eq_self_of_no_whitespace
    (fun c hc => char_isAlphanum_not_isWhitespace (h.2 c hc).1)]

theorem map_toLower_eq_self {l : List Char} (h : ∀ c ∈ l, Char.toLower c = c) :
    l.map Char.toLower = l := by
  induction l with
  | nil => rfl
  | cons c l ih =>
    simp only [List.map_cons, List.cons.injEq]
    exact ⟨h c (List.mem_cons_self c l),
      ih (fun a ha => h a (List.mem_cons_of_mem c ha))⟩

theorem pnNormalize_of_normalized {p : ProviderName} (h : p.Normalized) :
    pnNormalize p.val = p.val := by
  unfold pnNormalize
  have h1 : pyStripList p.val.data = p.val.data :=
    pyStripList_eq_self_of_no_whitespace
      (fun c hc => char_isAlphanum_not_isWhitespace (h.2 c hc).1)
  rw [h1, map_toLower_eq_self (fun c hc => (h.2 c hc).2),
    List.filter_eq_self.mpr (fun c hc => (h.2 c hc).1)]

theorem create_val_of_normalized {p : ProviderName} (h : p.Normalized) :
    ProviderName.create p.val = .ok p := by
  unfold ProviderName.create
  rw [if_neg (by rw [pyStrip_of_normalized h]; exact h.1)]
  rw [if_neg (by rw [pnNormalize_of_normalized h]; exact h.1)]
  rw [pnNormalize_of_normalized h]

theorem mapCapabilities_roundtrip :
    ∀ caps : List ExternalProviderCapability,
      mapCapabilities (caps.map ExternalProviderCapability.value) = .ok caps
  | [] => rfl
  | c :: caps => by
    have ih := mapCapabilities_roundtrip caps
    have hc : ExternalProviderCapability.ofValue c.value = .ok c := by
      cases c <;> rfl
    simp only [List.map_cons, mapCapabilities, hc, ih]

theorem isEmpty_false_of_ne {β : Type} {l : List β} (h : l ≠ []) :
    l.isEmpty = false := by
  cases l with
  | nil => exact absurd rfl h
  | cons a l => rfl

theorem getProvider_str_cases {α μ : Type} (registry : List (ProviderM α μ))
    {s : String} (hs : s ≠ "") :
    (pyStrip s = "" → getProvider registry (.str s) = .error .pnEmptyName) ∧
    (pyStrip s ≠ "" → pnNormalize s = "" →
      getProvider registry (.str s) = .error .pnNormEmpty) ∧
    (pyStrip s ≠ "" → pnNormalize s ≠ "" →
      (∀ p ∈ registry, p.info.name.val ≠ pnNormalize s) →
      getProvider registry (.str s) = .error .gpKeyError) := by
  have hinv : nameArgInvalid (.str s) = false := by
    simp [nameArgInvalid, hs]
  refine ⟨fun h1 => ?_, fun h1 h2 => ?_, fun h1 h2 h3 => ?_⟩
  · simp [getProvider, hinv, h1]
  · simp [getProvider, hinv, h1, h2]
  · have hfind : registry.find? (fun p => p.info.name.val == pnNormalize s) = none := by
      rw [List.find?_eq_none]
      intro p hp
      simp only [beq_eq_false_iff_ne, ne_eq, Bool.not_eq_true]
      exact fun hcon => h3 p hp hcon
    simp [getProvider, hinv, h1, h2, hfind]

theorem fetchLatest_gp_error {α μ : Type} {registry : List (ProviderM α μ)}
    {arg : NameArg} (limit : Nat) (hreg : registry ≠ [])
    (hinv : nameArgInvalid arg = false) {e : Exc}
    (hgp : getProvider registry arg = .error e) :
    fetchLatest registry arg limit =
      .error (mapGetProviderErr .invalidNameFetchLatest e) := by
  simp [fetchLatest, isEmpty_false_of_ne hreg, hinv, hgp]

theorem fetchByUser_gp_error {α μ : Type} {registry : List (ProviderM α μ)}
    {arg : NameArg} (username : String) (limit : Nat) (hreg : registry ≠ [])
    (hinv : nameArgInvalid arg = false) {e : Exc}
    (hgp : getProvider registry arg = .error e) :
    fetchByUser registry arg username limit =
      .error (mapGetProviderErr .invalidNameFetchByUser e) := by
  simp [fetchByUser, isEmpty_false_of_ne hreg, hinv, hgp]

theorem fetchByTags_gp_error {α μ : Type} {registry : List (ProviderM α μ)}
    {arg : NameArg} (tags : Option (List String)) (limit : Nat)
    (hreg : registry ≠ []) (hinv : nameArgInvalid arg = false) {e : Exc}
    (hgp : getProvider registry arg = .error e) :
    fetchByTags registry arg tags limit =
      .error (mapGetProviderErr .invalidNameFetchByTags e) := by
  simp [fetchByTags, isEmpty_false_of_ne hreg, hinv, hgp]

theorem upload_gp_error {α μ : Type} {registry : List (ProviderM α μ)}
    {arg : NameArg} (media : μ) (hreg : registry ≠ [])
    (hinv : nameArgInvalid arg = false) {e : Exc}
    (hgp : getProvider registry arg = .error e) :
    upload registry arg media = .error (mapGetProviderErr .invalidNameUpload e) := by
  simp [upload, isEmpty_false_of_ne hreg, hinv, hgp]

theorem uploadToMultiple_single_gp_error {α μ : Type}
    {registry : List (ProviderM α μ)} {arg : NameArg} (media : μ)
    (hreg : registry ≠ []) (hinv : nameArgInvalid arg = false) {e : Exc}
    (hgp : getProvider registry arg = .error e) :
    (uploadToMultiple registry media [arg]).1 =
      .error (mapGetProviderErr .invalidNameUploadMulti e) := by
  simp [uploadToMultiple, isEmpty_false_of_ne hreg, uploadMultiGo, hinv, hgp]

/-! ## Claim C1 -/

/-- C1 counterexample: with one registered provider and the non-empty
provider name `"!!!"` (which normalizes to empty), `fetch_latest` lets
the `ProviderName` normalizes-to-empty construction exception escape —
the operation-specific invalid-provider-name error is not raised. -/
theorem C1_counterexample :
    fetchLatest [provA] (.str "!!!") 200 = .error .pnNormEmpty ∧
    Exc.pnNormEmpty ≠ Exc.invalidNameFetchLatest := by
  refine ⟨rfl, by decide⟩

/-- C1 (amended): with a non-empty registry and a non-empty string
provider name, a resolve failure where the normalized name matches no
registered provider raises the operation-specific invalid-provider-name
error for each operation; but a name of invalid format instead lets the
`ProviderName` construction exception propagate: a whitespace-only name
raises the empty-name error and a name normalizing to empty (such as
`"!!!"`) raises the normalizes-to-empty error, unconverted. -/
theorem C1_amended {α μ : Type} (registry : List (ProviderM α μ)) (s : String)
    (media : μ) (username : String) (tags : Option (List String)) (limit : Nat)
    (hreg : registry ≠ []) (hs : s ≠ "") :
    (pyStrip s ≠ "" → pnNormalize s ≠ "" →
      (∀ p ∈ registry, p.info.name.val ≠ pnNormalize s) →
      fetchLatest registry (.str s) limit = .error .invalidNameFetchLatest ∧
      fetchByUser registry (.str s) username limit = .error .invalidNameFetchByUser ∧
      fetchByTags registry (.str s) tags limit = .error .invalidNameFetchByTags ∧
      upload registry (.str s) media = .error .invalidNameUpload ∧
      (uploadToMultiple registry media [.str s]).1 = .error .invalidNameUploadMulti) ∧
    (pyStrip s = "" →
      fetchLatest registry (.str s) limit = .error .pnEmptyName ∧
      fetchByUser registry (.str s) username limit = .error .pnEmptyName ∧
      fetchByTags registry (.str s) tags limit = .error .pnEmptyName ∧
      upload registry (.str s) media = .error .pnEmptyName ∧
      (uploadToMultiple registry media [.str s]).1 = .error .pnEmptyName) ∧
    (pyStrip s ≠ "" → pnNormalize s = "" →
      fetchLatest registry (.str s) limit = .error .pnNormEmpty ∧
      fetchByUser registry (.str s) username limit = .error .pnNormEmpty ∧
      fetchByTags registry (.str s) tags limit = .error .pnNormEmpty ∧
      upload registry (.str s) media = .error .pnNormEmpty ∧
      (uploadToMultiple registry media [.str s]).1 = .error .pnNormEmpty) := by
  have hinv : nameArgInvalid (.str s) = false := by
    simp [nameArgInvalid, hs]
  obtain ⟨g1, g2, g3⟩ := getProvider_str_cases registry hs
  refine ⟨fun h1 h2 h3 => ?_, fun h1 => ?_, fun h1 h2 => ?_⟩
  · exact ⟨fetchLatest_gp_error limit hreg hinv (g3 h1 h2 h3),
      fetchByUser_gp_error username limit hreg hinv (g3 h1 h2 h3),
      fetchByTags_gp_error tags limit hreg hinv (g3 h1 h2 h3),
      upload_gp_error media hreg hinv (g3 h1 h2 h3),
      uploadToMultiple_single_gp_error media hreg hinv (g3 h1 h2 h3)⟩
  · exact ⟨fetchLatest_gp_error limit hreg hinv (g1 h1),
      fetchByUser_gp_error username limit hreg hinv (g1 h1),
      fetchByTags_gp_error tags limit hreg hinv (g1 h1),
      upload_gp_error media hreg hinv (g1 h1),
      uploadToMultiple_single_gp_error media hreg hinv (g1 h1)⟩
  · exact ⟨fetchLatest_gp_error limit hreg hinv (g2 h1 h2),
      fetchByUser_gp_error username limit hreg hinv (g2 h1 h2),
      fetchByTags_gp_error tags limit hreg hinv (g2 h1 h2),
      upload_gp_error media hreg hinv (g2 h1 h2),
      uploadToMultiple_single_gp_error media hreg hinv (g2 h1 h2)⟩

/-- C1 witness: the amended statement instantiated at a one-provider
registry, with the unresolved name `"missing"`, the whitespace-only name
and the all-punctuation name exercised through the three cases. -/
theorem C1_amended_witness :
    fetchLatest [provA] (.str "missing") 200 = .error .invalidNameFetchLatest ∧
    fetchLatest [provA] (.str "  ") 200 = .error .pnEmptyName ∧
    fetchLatest [provA] (.str "!?") 200 = .error .pnNormEmpty :=
  ⟨((C1_amended [provA] "missing" 0 "user" none 200 (by simp) (by decide)).1
      (by decide) (by decide) (by decide)).1,
    ((C1_amended [provA] "  " 0 "user" none 200 (by simp) (by decide)).2.1
      (by decide)).1,
    ((C1_amended [provA] "!?" 0 "user" none 200 (by simp) (by decide)).2.2
      (by decide) (by decide)).1⟩

/-! ## Claim C3 -/

/-- C3 counterexample: with `providerA` registered, upload-capable and
listed first, `upload_to_multiple(media, ["providerA", "missing"])`
raises the batch invalid-provider-name error, yet providerA's upload
operation has been invoked (the invocation trace is non-empty) —
contradicting the claim that it is never invoked. -/
theorem C3_counterexample :
    (uploadToMultiple [provA] (0 : Nat) [.str "providerA", .str "missing"]).1 =
      .error .invalidNameUploadMulti ∧
    (uploadToMultiple [provA] (0 : Nat) [.str "providerA", .str "missing"]).2 ≠ [] := by
  refine ⟨rfl, by decide⟩

/-- C3 (amended): `upload_to_multiple(media, ["providerA", n])`, with
providerA resolving and upload-capable and `n` a well-formed name
resolving to no registered provider, raises the batch
invalid-provider-name error and returns no partial result mapping; but
names are processed strictly in order, so providerA's upload operation
is invoked exactly once before the failure (and nothing after the
failing entry is attempted). -/
theorem C3_amended {α μ : Type} (registry : List (ProviderM α μ))
    (pA : ProviderM α μ) (media : μ) (sA n : String)
    (hreg : registry ≠ []) (hsA : sA ≠ "")
    (hA : getProvider registry (.str sA) = .ok pA)
    (hcap : pA.info.hasCapability .upload = true)
    (hn : n ≠ "") (hn1 : pyStrip n ≠ "") (hn2 : pnNormalize n ≠ "")
    (hnomatch : ∀ p ∈ registry, p.info.name.val ≠ pnNormalize n) :
    (uploadToMultiple registry media [.str sA, .str n]).1 =
      .error .invalidNameUploadMulti ∧
    (uploadToMultiple registry media [.str sA, .str n]).2 = [pA.info.name.val] := by
  obtain ⟨_, _, g3⟩ := getProvider_str_cases registry hn
  have hgp2 := g3 hn1 hn2 hnomatch
  have hinvA : nameArgInvalid (.str sA) = false := by simp [nameArgInvalid, hsA]
  have hinvN : nameArgInvalid (.str n) = false := by simp [nameArgInvalid, hn]
  cases hout : pA.uploadOp [media] with
  | ok u =>
    constructor <;>
      simp [uploadToMultiple, isEmpty_false_of_ne hreg, uploadMultiGo, hinvA,
        hinvN, hA, hcap, hout, hgp2, dictInsert, mapGetProviderErr]
  | error u =>
    constructor <;>
      simp [uploadToMultiple, isEmpty_false_of_ne hreg, uploadMultiGo, hinvA,
        hinvN, hA, hcap, hout, hgp2, dictInsert, mapGetProviderErr]

/-- C3 witness: the amended statement at a concrete one-provider
registry. -/
theorem C3_amended_witness :
    (uploadToMultiple [provA] (7 : Nat) [.str "providerA", .str "missing"]).1 =
      .error .invalidNameUploadMulti ∧
    (uploadToMultiple [provA] (7 : Nat) [.str "providerA", .str "missing"]).2 =
      [provA.info.name.val] :=
  C3_amended [provA] provA 7 "providerA" "missing" (by simp) (by decide) rfl rfl
    (by decide) (by decide) (by decide) (by decide)

/-! ## Claim C5 -/

theorem getProvider_ok_arg_valid {α μ : Type} {registry : List (ProviderM α μ)}
    {arg : NameArg} {p : ProviderM α μ}
    (h : getProvider registry arg = .ok p) : nameArgInvalid arg = false := by
  cases arg with
  | pyNone => exact absurd h (by simp [getProvider, nameArgInvalid])
  | nonString t => exact absurd h (by simp [getProvider, nameArgInvalid])
  | str s =>
    by_cases hs : s = ""
    · subst hs; exact absurd h (by simp [getProvider, nameArgInvalid])
    · simp [nameArgInvalid, hs]

/-- C5: when all four validation steps of `MediaUploader.upload`
succeed, a provider upload that raises returns `false` and a normal
return yields `true`; validation failures are never converted to a
boolean and each raises its specific error. -/
theorem C5_upload_policy {α μ : Type} (registry : List (ProviderM α μ))
    (arg : NameArg) (media : μ) :
    (∀ p : ProviderM α μ, registry ≠ [] → getProvider registry arg = .ok p →
      p.info.hasCapability .upload = true →
      ((p.uploadOp [media] = .ok () → upload registry arg media = .ok true) ∧
       (p.uploadOp [media] = .error () → upload registry arg media = .ok false))) ∧
    (registry = [] → upload registry arg media = .error .noProvidersUpload) ∧
    (registry ≠ [] → nameArgInvalid arg = true →
      upload registry arg media = .error .invalidNameUpload) ∧
    (∀ p : ProviderM α μ, registry ≠ [] → getProvider registry arg = .ok p →
      p.info.hasCapability .upload = false →
      upload registry arg media = .error .noCapUpload) := by
  refine ⟨fun p hreg hgp hcap => ⟨fun hok => ?_, fun herr => ?_⟩,
    fun hreg => ?_, fun hreg hinv => ?_, fun p hreg hgp hcap => ?_⟩
  · simp [upload, isEmpty_false_of_ne hreg, getProvider_ok_arg_valid hgp,
      hgp, hcap, hok]
  · simp [upload, isEmpty_false_of_ne hreg, getProvider_ok_arg_valid hgp,
      hgp, hcap, herr]
  · subst hreg; rfl
  · simp [upload, isEmpty_false_of_ne hreg, hinv]
  · simp [upload, isEmpty_false_of_ne hreg, getProvider_ok_arg_valid hgp,
      hgp, hcap]

/-- C5 witness: the policy at concrete registries — a succeeding upload
yields `true`, a raising upload yields `false`, an empty registry and a
capability-less provider raise their specific errors. -/
theorem C5_upload_policy_witness :
    upload [provA] (.str "providerA") (0 : Nat) = .ok true ∧
    upload [provB] (.str "providerB") (0 : Nat) = .ok false ∧
    upload ([] : List (ProviderM Nat Nat)) (.str "providerA") (0 : Nat) =
      .error .noProvidersUpload ∧
    upload [provC] (.str "providerC") (0 : Nat) = .error .noCapUpload :=
  ⟨((C5_upload_policy [provA] (.str "providerA") 0).1 provA (by simp) rfl rfl).1 rfl,
    ((C5_upload_policy [provB] (.str "providerB") 0).1 provB (by simp) rfl rfl).2 rfl,
    (C5_upload_policy [] (.str "providerA") 0).2.1 rfl,
    (C5_upload_policy [provC] (.str "providerC") 0).2.2.2 provC (by simp) rfl rfl⟩

/-! ## Claim C2 -/

/-- C2 counterexample: `ProviderName("ab")` stores `"ab"`, and the full
normalization of `"a-b"` is also `"ab"`, so the claim predicts
`p == "a-b"` is true; but `__eq__` compares `"ab"` with
`"a-b".strip().lower() = "a-b"` and returns false. -/
theorem C2_counterexample :
    ProviderName.create "ab" = .ok ⟨"ab"⟩ ∧
    pnNormalize "a-b" = "ab" ∧
    ProviderName.eqStr ⟨"ab"⟩ "a-b" = false := by
  refine ⟨rfl, by decide, by decide⟩

/-- C2 (amended): for every successfully constructed `ProviderName` `p`
(from input `s`) and every string `t`, `p == t` is true exactly when the
stored normalized value of `s` equals `t` normalized by trim and
lowercase only — non-alphanumeric characters of `t` are not stripped. -/
theorem C2_amended (s : String) (p : ProviderName)
    (h : ProviderName.create s = .ok p) (t : String) :
    p.eqStr t = true ↔ pnNormalize s = pyLower (pyStrip t) := by
  unfold ProviderName.eqStr
  rw [create_ok_val h]
  exact beq_iff_eq
      (a := pnNormalize s) (b := pyLower (pyStrip t))

/-- C2 witness: the amended equivalence at a concrete constructed name
and comparison string. -/
theorem C2_amended_witness :
    ProviderName.eqStr ⟨"myprovider"⟩ " MyProvider " = true ↔
      pnNormalize "My-Provider" = pyLower (pyStrip " MyProvider ") :=
  C2_amended "My-Provider" ⟨"myprovider"⟩ rfl " MyProvider "

/-! ## Claim C4 -/

/-- C4: every successfully constructed `Page` satisfies
`has_more == (next_cursor is present)`; construction with `has_more`
true and no cursor fails, construction with a cursor and `has_more`
false fails, with two distinct error kinds. -/
theorem C4_page_invariant :
    (∀ (α : Type) (items : List α) (c : Option String) (hm : Bool) (p : Page α),
      Page.create items c hm = .ok p → p.hasMore = p.nextCursor.isSome) ∧
    (∀ (α : Type) (items : List α),
      Page.create items none true = (.error .pageHasMoreNoCursor : Except Exc (Page α))) ∧
    (∀ (α : Type) (items : List α) (s : String),
      Page.create items (some s) false = (.error .pageCursorNoMore : Except Exc (Page α))) ∧
    Exc.pageHasMoreNoCursor ≠ Exc.pageCursorNoMore := by
  refine ⟨?_, fun α items => rfl, fun α items s => rfl, by decide⟩
  intro α items c hm p h
  unfold Page.create at h
  cases hm <;> cases c <;> first
    | exact Except.noConfusion h
    | (injection h with h2; subst h2; rfl)

/-- C4 witness: a concrete successful construction carrying both the
cursor and the more-flag, satisfying the invariant. -/
theorem C4_page_invariant_witness :
    ∃ p : Page Nat, Page.create [1, 2] (some "cur") true = .ok p ∧
      p.hasMore = p.nextCursor.isSome :=
  ⟨⟨[1, 2], some "cur", true⟩, rfl,
    C4_page_invariant.1 Nat [1, 2] (some "cur") true ⟨[1, 2], some "cur", true⟩ rfl⟩

/-! ## Claim C6 -/

/-- C6: with an empty registry, every fetch and upload operation raises
its operation-specific no-providers-registered error, for every shape of
`provider_name` (`None`, a non-string, the empty string, any string) —
the registry check precedes name validation. -/
theorem C6_empty_registry (α μ : Type) (arg : NameArg) (username : String)
    (tags : Option (List String)) (limit : Nat) (media : μ) (names : List NameArg) :
    fetchLatest ([] : List (ProviderM α μ)) arg limit = .error .noProvidersFetchLatest ∧
    fetchByUser ([] : List (ProviderM α μ)) arg username limit = .error .noProvidersFetchByUser ∧
    fetchByTags ([] : List (ProviderM α μ)) arg tags limit = .error .noProvidersFetchByTags ∧
    upload ([] : List (ProviderM α μ)) arg media = .error .noProvidersUpload ∧
    (uploadToMultiple ([] : List (ProviderM α μ)) media names).1 =
      .error .noProvidersUploadMulti :=
  ⟨rfl, rfl, rfl, rfl, rfl⟩

/-! ## Claim C8 -/

/-- C8: `ExternalMedia.__init__` runs its six validations in the fixed
order url → title non-empty → title length → description length → tag
count → provider, the first failing check raising its field-specific
error; an invalid url wins over 31 tags, and exactly 30 tags pass the
tag-count check. -/
theorem C8_validation_order {γ δ ε : Type} (url title description : String)
    (cm : γ) (tags : List String) (mr : δ) (ai : ε)
    (provider : Option ExternalProviderInfo) :
    (url = "" ∨ isValidUrl url = false →
      ExternalMedia.create url title description cm tags mr ai provider =
        .error .emInvalidURL) ∧
    (url ≠ "" → isValidUrl url = true → (title = "" ∨ pyStrip title = "") →
      ExternalMedia.create url title description cm tags mr ai provider =
        .error .emEmptyTitle) ∧
    (url ≠ "" → isValidUrl url = true → title ≠ "" → pyStrip title ≠ "" →
      title.length > 255 →
      ExternalMedia.create url title description cm tags mr ai provider =
        .error .emTitleTooLong) ∧
    (url ≠ "" → isValidUrl url = true → title ≠ "" → pyStrip title ≠ "" →
      title.length ≤ 255 → description.length > 2048 →
      ExternalMedia.create url title description cm tags mr ai provider =
        .error .emDescTooLong) ∧
    (url ≠ "" → isValidUrl url = true → title ≠ "" → pyStrip title ≠ "" →
      title.length ≤ 255 → description.length ≤ 2048 → tags.length > 30 →
      ExternalMedia.create url title description cm tags mr ai provider =
        .error .emTooManyTags) ∧
    (url ≠ "" → isValidUrl url = true → title ≠ "" → pyStrip title ≠ "" →
      title.length ≤ 255 → description.length ≤ 2048 → tags.length ≤ 30 →
      provider = none →
      ExternalMedia.create url title description cm tags mr ai provider =
        .error .emInvalidProvider) ∧
    (∀ p : ExternalProviderInfo, url ≠ "" → isValidUrl url = true → title ≠ "" →
      pyStrip title ≠ "" → title.length ≤ 255 → description.length ≤ 2048 →
      tags.length ≤ 30 → provider = some p →
      ExternalMedia.create url title description cm tags mr ai provider =
        .ok ⟨url, title, description, cm, tags, mr, ai, p⟩) := by
  refine ⟨fun h1 => ?_, fun h1 h2 h3 => ?_, fun h1 h2 h3 h4 h5 => ?_,
    fun h1 h2 h3 h4 h5 h6 => ?_, fun h1 h2 h3 h4 h5 h6 h7 => ?_,
    fun h1 h2 h3 h4 h5 h6 h7 h8 => ?_, fun p h1 h2 h3 h4 h5 h6 h7 h8 => ?_⟩
  · rcases h1 with h1 | h1 <;> simp [ExternalMedia.create, h1]
  · rcases h3 with h3 | h3 <;> simp [ExternalMedia.create, h1, h2, h3]
  · simp [ExternalMedia.create, h1, h2, h3, h4, h5]
  · have h5' : ¬(title.length > 255) := by omega
    simp [ExternalMedia.create, h1, h2, h3, h4, h5', h6]
  · have h5' : ¬(title.length > 255) := by omega
    have h6' : ¬(description.length > 2048) := by omega
    simp [ExternalMedia.create, h1, h2, h3, h4, h5', h6', h7]
  · have h5' : ¬(title.length > 255) := by omega
    have h6' : ¬(description.length > 2048) := by omega
    have h7' : ¬(tags.length > 30) := by omega
    subst h8
    simp [ExternalMedia.create, h1, h2, h3, h4, h5', h6', h7']
  · have h5' : ¬(title.length > 255) := by omega
    have h6' : ¬(description.length > 2048) := by omega
    have h7' : ¬(tags.length > 30) := by omega
    subst h8
    simp [ExternalMedia.create, h1, h2, h3, h4, h5', h6', h7']

/-- C8 witness: an input with an invalid url and 31 tags fails with the
invalid-URL error, and an input with exactly 30 tags and all other
fields valid constructs successfully. -/
theorem C8_validation_order_witness :
    ExternalMedia.create "no url" "Title" "" (0 : Nat)
      (List.replicate 31 "t") (0 : Nat) (0 : Nat) (some epiA) =
      .error .emInvalidURL ∧
    ExternalMedia.create "https://example.com/a.jpg" "Title" "" (0 : Nat)
      (List.replicate 30 "t") (0 : Nat) (0 : Nat) (some epiA) =
      .ok ⟨"https://example.com/a.jpg", "Title", "", 0,
        List.replicate 30 "t", 0, 0, epiA⟩ :=
  ⟨(C8_validation_order "no url" "Title" "" 0 (List.replicate 31 "t") 0 0
      (some epiA)).1 (Or.inr (by decide)),
    (C8_validation_order "https://example.com/a.jpg" "Title" "" 0
      (List.replicate 30 "t") 0 0 (some epiA)).2.2.2.2.2.2 epiA (by decide)
      (by decide) (by decide) (by decide) (by decide) (by decide) (by decide) rfl⟩

/-! ## Claim C9 -/

theorem contentTypeOfValue_cases (v : String) :
    (∃ c, ContentType.ofValue v = .ok c) ∨
      ContentType.ofValue v = .error .badContentType := by
  unfold ContentType.ofValue
  repeat' split
  all_goals simp

theorem matureRatingOfValue_cases (v : String) :
    (∃ m, MatureRating.ofValue v = .ok m) ∨
      MatureRating.ofValue v = .error .badMatureRating := by
  unfold MatureRating.ofValue
  repeat' split
  all_goals simp

theorem capabilityOfValue_cases (v : String) :
    (∃ c, ExternalProviderCapability.ofValue v = .ok c) ∨
      ExternalProviderCapability.ofValue v = .error .badCapabilityValue := by
  unfold ExternalProviderCapability.ofValue
  repeat' split
  all_goals simp

theorem mapCapabilities_error :
    ∀ {l : List String} {e : Exc}, mapCapabilities l = .error e →
      e = .badCapabilityValue
  | [], e, h => by simp [mapCapabilities] at h
  | v :: rest, e, h => by
    unfold mapCapabilities at h
    split at h
    · rename_i e' heq
      cases h
      rcases capabilityOfValue_cases v with ⟨c, hc⟩ | hc <;> rw [hc] at heq
      · exact Except.noConfusion heq
      · cases heq; rfl
    · rename_i e' heq
      cases h
      exact mapCapabilities_error heq
    · exact Except.noConfusion h

theorem pnCreate_error {s : String} {e : Exc}
    (h : ProviderName.create s = .error e) :
    e = .pnEmptyName ∨ e = .pnNormEmpty := by
  unfold ProviderName.create at h
  split at h
  · cases h; exact Or.inl rfl
  · split at h
    · cases h; exact Or.inr rfl
    · exact Except.noConfusion h

theorem epiCreate_error {name : Option ProviderName}
    {caps : List ExternalProviderCapability} {desc : Option String} {e : Exc}
    (h : ExternalProviderInfo.create name caps desc = .error e) :
    e = .epiEmptyName ∨ e = .epiEmptyCapabilities := by
  unfold ExternalProviderInfo.create at h
  repeat' split at h
  all_goals simp_all

theorem epiFromDict_error {d : ProviderInfoDict} {e : Exc}
    (h : ExternalProviderInfo.fromDict d = .error e) :
    e = .pnEmptyName ∨ e = .pnNormEmpty ∨ e = .badCapabilityValue ∨
      e = .epiEmptyName ∨ e = .epiEmptyCapabilities := by
  unfold ExternalProviderInfo.fromDict at h
  split at h
  · rename_i e' hpn
    cases h
    rcases pnCreate_error hpn with h1 | h1
    · exact Or.inl h1
    · exact Or.inr (Or.inl h1)
  · split at h
    · rename_i e' hcaps
      cases h
      exact Or.inr (Or.inr (Or.inl (mapCapabilities_error hcaps)))
    · rcases epiCreate_error h with h1 | h1
      · exact Or.inr (Or.inr (Or.inr (Or.inl h1)))
      · exact Or.inr (Or.inr (Or.inr (Or.inr h1)))

theorem cmFromDict_error {d : ContentMetadataDict} {e : Exc}
    (h : ContentMetadata.fromDict d = .error e) : e = .badContentType := by
  unfold ContentMetadata.fromDict at h
  split at h
  · rename_i e' hct
    cases h
    rcases contentTypeOfValue_cases d.contentType with ⟨c, hc⟩ | hc <;>
      rw [hc] at hct
    · exact Except.noConfusion hct
    · cases hct; rfl
  · exact Except.noConfusion h

theorem mrOfValue_error {v : String} {e : Exc}
    (h : MatureRating.ofValue v = .error e) : e = .badMatureRating := by
  rcases matureRatingOfValue_cases v with ⟨m, hm⟩ | hm <;> rw [hm] at h
  · exact Except.noConfusion h
  · cases h; rfl

theorem emCreate_error_mem {γ δ ε : Type} {url title description : String}
    {cm : γ} {tags : List String} {mr : δ} {ai : ε}
    {provider : Option ExternalProviderInfo} {e : Exc}
    (h : ExternalMedia.create url title description cm tags mr ai provider =
      .error e) :
    e = .emInvalidURL ∨ e = .emEmptyTitle ∨ e = .emTitleTooLong ∨
      e = .emDescTooLong ∨ e = .emTooManyTags ∨ e = .emInvalidProvider := by
  unfold ExternalMedia.create at h
  repeat' split at h
  all_goals simp_all

/-- C9: `ExternalMedia.__init__` performs no validation of
`content_metadata`, `mature_rating` or `ai_metadata` — construction is
polymorphic in those three arguments, succeeds storing them unchanged
whenever the six checked conditions hold, and neither construction nor
deserialization ever raises the invalid-content-metadata or
invalid-rating error kinds. -/
theorem C9_no_metadata_validation {γ δ ε : Type} (url title description : String)
    (cm : γ) (tags : List String) (mr : δ) (ai : ε)
    (provider : Option ExternalProviderInfo) :
    (ExternalMedia.create url title description cm tags mr ai provider ≠
      .error .emInvalidContentMetadata) ∧
    (ExternalMedia.create url title description cm tags mr ai provider ≠
      .error .emInvalidRating) ∧
    (∀ d : MediaDict, ExternalMedia.fromDict d ≠ .error .emInvalidContentMetadata ∧
      ExternalMedia.fromDict d ≠ .error .emInvalidRating) ∧
    (∀ p : ExternalProviderInfo, url ≠ "" → isValidUrl url = true → title ≠ "" →
      pyStrip title ≠ "" → title.length ≤ 255 → description.length ≤ 2048 →
      tags.length ≤ 30 → provider = some p →
      ExternalMedia.create url title description cm tags mr ai provider =
        .ok ⟨url, title, description, cm, tags, mr, ai, p⟩) := by
  refine ⟨fun h => ?_, fun h => ?_, fun d => ?_, fun p h1 h2 h3 h4 h5 h6 h7 h8 => ?_⟩
  · rcases emCreate_error_mem h with h | h | h | h | h | h <;> cases h
  · rcases emCreate_error_mem h with h | h | h | h | h | h <;> cases h
  · constructor
    all_goals
      intro h
      unfold ExternalMedia.fromDict at h
      split at h
      · rename_i e hcm
        cases h
        exact absurd (cmFromDict_error hcm) (by decide)
      · split at h
        · rename_i e hmr
          cases h
          exact absurd (mrOfValue_error hmr) (by decide)
        · split at h
          · rename_i e hepi
            cases h
            rcases epiFromDict_error hepi with h1 | h1 | h1 | h1 | h1 <;> cases h1
          · rcases emCreate_error_mem h with h1 | h1 | h1 | h1 | h1 | h1 <;> cases h1
  · have h5' : ¬(title.length > 255) := by omega
    have h6' : ¬(description.length > 2048) := by omega
    have h7' : ¬(tags.length > 30) := by omega
    subst h8
    simp [ExternalMedia.create, h1, h2, h3, h4, h5', h6', h7']

/-- C9 witness: wrong-shaped metadata arguments (here plain `Nat`s for
all three) do not block construction when the six checks hold. -/
theorem C9_no_metadata_validation_witness :
    ExternalMedia.create "https://example.com" "T" "" (5 : Nat) [] (9 : Nat)
      (13 : Nat) (some epiA) = .ok ⟨"https://example.com", "T", "", 5, [], 9, 13, epiA⟩ :=
  (C9_no_metadata_validation "https://example.com" "T" "" 5 [] 9 13
    (some epiA)).2.2.2 epiA (by decide) (by decide) (by decide) (by decide)
    (by decide) (by decide) (by decide) rfl

/-! ## Claim C7 -/

theorem aiRoundtrip (a : AiMetadata) : AiMetadata.fromDict a.toDict = a := rfl

theorem cmRoundtrip (c : ContentMetadata) :
    ContentMetadata.fromDict c.toDict = .ok c := by
  obtain ⟨ct, dim, fs⟩ := c
  cases ct <;> rfl

theorem mrRoundtrip (m : MatureRating) : MatureRating.ofValue m.value = .ok m := by
  cases m <;> rfl

theorem pageRoundtrip {α : Type} (p : Page α)
    (h : p.hasMore = p.nextCursor.isSome) : Page.fromDict p.toDict = .ok p := by
  obtain ⟨items, nc, hm⟩ := p
  cases nc <;> cases hm <;> first
    | rfl
    | (exfalso; simp at h)

theorem epiRoundtrip (i : ExternalProviderInfo) (hv : i.Valid) :
    ExternalProviderInfo.fromDict i.toDict = .ok i := by
  obtain ⟨hn, hcaps⟩ := hv
  unfold ExternalProviderInfo.fromDict ExternalProviderInfo.toDict
  simp only [create_val_of_normalized hn, mapCapabilities_roundtrip]
  have hred : ExternalProviderInfo.create (some i.name) i.capabilities i.description =
      if pyStrip i.name.val = "" then .error .epiEmptyName
      else if i.capabilities = [] then .error .epiEmptyCapabilities
      else .ok ⟨i.name, i.description, i.capabilities⟩ := rfl
  rw [hred, if_neg (by rw [pyStrip_of_normalized hn]; exact hn.1), if_neg hcaps]

theorem emRoundtrip (m : ExternalMedia ContentMetadata MatureRating (Option AiMetadata))
    (hv : m.Valid) : ExternalMedia.fromDict m.toDict = .ok m := by
  obtain ⟨hurl, hvalid, htitle, hstrip, hlen, hdesc, htags, hprov⟩ := hv
  unfold ExternalMedia.fromDict ExternalMedia.toDict
  simp only [cmRoundtrip, mrRoundtrip, epiRoundtrip m.provider hprov]
  have hai : (m.aiMetadata.map AiMetadata.toDict).map AiMetadata.fromDict =
      m.aiMetadata := by
    cases m.aiMetadata <;> rfl
  rw [hai]
  have h5' : ¬(m.title.length > 255) := by omega
  have h6' : ¬(m.description.length > 2048) := by omega
  have h7' : ¬(m.tags.length > 30) := by omega
  simp [ExternalMedia.create, hurl, hvalid, htitle, hstrip, h5', h6', h7']

/-- C7: deserializing the serialized form of a valid `ExternalMedia`,
`ExternalProviderInfo`, `ContentMetadata`, `AiMetadata` or `Page` yields
an equal value, the nested value objects passing through their wire
strings. -/
theorem C7_roundtrip :
    (∀ a : AiMetadata, AiMetadata.fromDict a.toDict = a) ∧
    (∀ c : ContentMetadata, ContentMetadata.fromDict c.toDict = .ok c) ∧
    (∀ (α : Type) (p : Page α), p.hasMore = p.nextCursor.isSome →
      Page.fromDict p.toDict = .ok p) ∧
    (∀ i : ExternalProviderInfo, i.Valid →
      ExternalProviderInfo.fromDict i.toDict = .ok i) ∧
    (∀ m : ExternalMedia ContentMetadata MatureRating (Option AiMetadata),
      m.Valid → ExternalMedia.fromDict m.toDict = .ok m) :=
  ⟨aiRoundtrip, cmRoundtrip, fun _ p h => pageRoundtrip p h,
    epiRoundtrip, emRoundtrip⟩

/-- C7 witness: the round trip at a concrete valid media value (whose
serialization exercises the nested provider-info, content-metadata and
ai-metadata encodings) and at a concrete page. -/
theorem C7_roundtrip_witness :
    ExternalMedia.fromDict
      (ExternalMedia.toDict
        ⟨"https://example.com/a.jpg", "Title", "desc", ⟨.imageJpeg, ⟨10, 20⟩, 1000⟩,
          ["t1", "t2"], .pg13, some ⟨true⟩, epiA⟩) =
      .ok ⟨"https://example.com/a.jpg", "Title", "desc", ⟨.imageJpeg, ⟨10, 20⟩, 1000⟩,
        ["t1", "t2"], .pg13, some ⟨true⟩, epiA⟩ ∧
    Page.fromDict (Page.toDict (⟨[4, 5], some "cur", true⟩ : Page Nat)) =
      .ok ⟨[4, 5], some "cur", true⟩ :=
  ⟨C7_roundtrip.2.2.2.2
      ⟨"https://example.com/a.jpg", "Title", "desc", ⟨.imageJpeg, ⟨10, 20⟩, 1000⟩,
        ["t1", "t2"], .pg13, some ⟨true⟩, epiA⟩
      ⟨by decide, by decide, by decide, by decide, by decide, by decide, by decide,
        ⟨⟨by decide, by decide⟩, by decide⟩⟩,
    C7_roundtrip.2.2.1 Nat ⟨[4, 5], some "cur", true⟩ rfl⟩

/-! ## Claim C10 -/

/-- C10: every constructor-produced `ProviderName` stores a non-empty
string of alphanumeric, non-uppercase characters; consequently the
empty-name error branch of `ExternalProviderInfo.__init__` is
unreachable for genuine `ProviderName` instances and fires for a `None`
argument. -/
theorem C10_normalized_name (s : String) (p : ProviderName)
    (h : ProviderName.create s = .ok p) :
    (p.val ≠ "" ∧ ∀ c ∈ p.val.data, c.isAlphanum = true ∧ c.isUpper = false) ∧
    (∀ (caps : List ExternalProviderCapability) (desc : Option String),
      ExternalProviderInfo.create (some p) caps desc ≠ .error .epiEmptyName) ∧
    (∀ (caps : List ExternalProviderCapability) (desc : Option String),
      ExternalProviderInfo.create none caps desc = .error .epiEmptyName) := by
  have hn := create_ok_normalized h
  refine ⟨⟨hn.1, fun c hc => ?_⟩, fun caps desc => ?_, fun caps desc => rfl⟩
  · obtain ⟨ha, hl⟩ := hn.2 c hc
    refine ⟨ha, ?_⟩
    rw [← hl]
    exact char_toLower_not_upper c
  · have hred : ExternalProviderInfo.create (some p) caps desc =
        if pyStrip p.val = "" then .error .epiEmptyName
        else if caps = [] then .error .epiEmptyCapabilities
        else .ok ⟨p, desc, caps⟩ := rfl
    rw [hred, if_neg (by rw [pyStrip_of_normalized hn]; exact hn.1)]
    by_cases hc : caps = []
    · rw [if_pos hc]; simp
    · rw [if_neg hc]; simp

/-- C10 witness: the guarantees at a concrete constructed name. -/
theorem C10_normalized_name_witness :
    ((⟨"myprovider1"⟩ : ProviderName).val ≠ "" ∧
      ∀ c ∈ (⟨"myprovider1"⟩ : ProviderName).val.data,
        c.isAlphanum = true ∧ c.isUpper = false) ∧
    (∀ (caps : List ExternalProviderCapability) (desc : Option String),
      ExternalProviderInfo.create (some ⟨"myprovider1"⟩) caps desc ≠ .error .epiEmptyName) ∧
    (∀ (caps : List ExternalProviderCapability) (desc : Option String),
      ExternalProviderInfo.create none caps desc = .error .epiEmptyName) :=
  C10_normalized_name " My-Provider_1 " ⟨"myprovider1"⟩ rfl

end Galeriafora
